import Mathlib

/-
Verification of the radioserver repository: the client-side frame parser
(client/radioclient.go), the wire-format helpers (protocol/protocol.go) and
the server-side session registry RPCs (server/rpcCalls.go), embedded as
executable Lean definitions.  Machine integers are modelled as Nat with an
explicit modulus where the Go code relies on 32-bit wraparound; Go panics are
modelled as fatal outcomes; Go slices of bytes are lists of Nat.
-/

/-! ## Wire format (protocol/protocol.go) -/

/-- Protocol version record; Go struct Version with Major, Minor, Hash
(all unsigned machine integers, here Nat). -/
structure Version where
  Major : Nat
  Minor : Nat
  Hash : Nat
deriving DecidableEq

/-- protocol.go SplitProtocolVersion: major is bits 40..47, minor bits 32..39,
hash the low 32 bits of the packed 64-bit protocol version. -/
def SplitProtocolVersion (p : Nat) : Version :=
  { Major := ((p &&& (0xFF <<< 40)) >>> 40) &&& 0xFF
  , Minor := ((p &&& (0xFF <<< 32)) >>> 32) &&& 0xFF
  , Hash := p &&& 0xFFFFFFFF }

/-- protocol.go CurrentProtocolVersion = Version{Major: 0, Minor: 1, Hash: 0}. -/
def CurrentProtocolVersion : Version := ⟨0, 1, 0⟩

/-- protocol.go MaxMessageBodySize = 1 << 20. -/
def MaxMessageBodySize : Nat := 1 <<< 20

/-- binary.Size of the Go MessageHeader struct: 4 + 8 + 4 + 4 + 4 bytes. -/
def MessageHeaderSize : Nat := 24

/-- Go MessageHeader struct: packetNumber u32, protocolVersion u64,
messageType u32, reserved u32, bodySize u32. -/
structure MessageHeader where
  PacketNumber : Nat
  ProtocolVersion : Nat
  MessageType : Nat
  Reserved : Nat
  BodySize : Nat
deriving DecidableEq

/-- Parser phase constant GettingHeader / ParserAcquiringHeader (= 0). -/
def ParserAcquiringHeader : Nat := 0

/-- Parser phase constant ReadingData / ParserReadingData (= 1). -/
def ParserReadingData : Nat := 1

/-- 2^32, the modulus of Go uint32 arithmetic. -/
def UINT32MOD : Nat := 4294967296

/-! ## Byte-level helpers -/

/-- List indexing with a default, mirroring Go slice indexing on in-range
indices. -/
def nthD {α : Type} : List α → Nat → α → α
  | [], _, d => d
  | a :: _, 0, _ => a
  | _ :: l, n + 1, d => nthD l n d

/-- Write the bytes of src into dst starting at position pos, one index at a
time, as the Go copy loops in parseHeader/parseBody do. -/
def writeBytes : List Nat → Nat → List Nat → List Nat
  | dst, _, [] => dst
  | dst, pos, b :: rest => writeBytes (dst.set pos b) (pos + 1) rest

/-- Little-endian 32-bit read at byte offset off. -/
def le32 (b : List Nat) (off : Nat) : Nat :=
  nthD b off 0 + 256 * nthD b (off + 1) 0 + 65536 * nthD b (off + 2) 0 +
    16777216 * nthD b (off + 3) 0

/-- Little-endian 64-bit read at byte offset off. -/
def le64 (b : List Nat) (off : Nat) : Nat :=
  le32 b off + 4294967296 * le32 b (off + 4)

/-- binary.Read of a MessageHeader from the 24-byte header buffer
(little-endian field order as laid out in the Go struct). -/
def decodeHeader (b : List Nat) : MessageHeader :=
  { PacketNumber := le32 b 0
  , ProtocolVersion := le64 b 4
  , MessageType := le32 b 12
  , Reserved := le32 b 16
  , BodySize := le32 b 20 }

/-! ## Client parser state (client/radioclient.go RadioClient fields) -/

/-- The RadioClient fields read and written by parseMessage, parseHeader and
parseBody. -/
structure ClientState where
  terminated : Bool
  parserPhase : Nat
  parserPosition : Nat
  headerBuffer : List Nat
  bodyBuffer : List Nat
  header : MessageHeader
  lastSequenceNumber : Nat
  droppedBuffers : Nat
deriving DecidableEq

/-- Client parser state as it stands when threadLoop starts feeding chunks:
cleanup() set lastSequenceNumber to 0xFFFFFFFF and the counters to zero,
Connect() cleared terminated, and threadLoop reset the phase and position. -/
def initialClientState : ClientState :=
  { terminated := false
  , parserPhase := ParserAcquiringHeader
  , parserPosition := 0
  , headerBuffer := List.replicate 24 0
  , bodyBuffer := []
  , header := ⟨0, 0, 0, 0, 0⟩
  , lastSequenceNumber := 4294967295
  , droppedBuffers := 0 }

/-- Fatal parser errors: the two panics in parseMessage lines 233 and 237. -/
inductive ClientError where
  | unsupportedProtocolVersion
  | bodySizeTooLarge
deriving DecidableEq

/-- The validation performed on a freshly decoded header before any body byte
is consumed (radioclient.go lines 226-241): the decoded protocol version must
match CurrentProtocolVersion in major and minor, the body size must not exceed
MaxMessageBodySize; only then is the body accumulator of exactly BodySize
bytes allocated (make returns a zeroed slice). -/
def headerChecks (h : MessageHeader) : Except ClientError (List Nat) :=
  let sv := SplitProtocolVersion h.ProtocolVersion
  if CurrentProtocolVersion.Major ≠ sv.Major ∨ CurrentProtocolVersion.Minor ≠ sv.Minor then
    Except.error ClientError.unsupportedProtocolVersion
  else if MaxMessageBodySize < h.BodySize then
    Except.error ClientError.bodySizeTooLarge
  else
    Except.ok (List.replicate h.BodySize 0)

/-- Sequence bookkeeping on frame completion (radioclient.go lines 249-251):
gap = packetNumber - lastSequenceNumber - 1 in wrapping uint32 arithmetic,
lastSequenceNumber becomes the packet number, and the gap is added to the
dropped-buffers counter (also uint32). Returns the new
(lastSequenceNumber, droppedBuffers) pair. -/
def updateSequence (lastSeq dropped pkt : Nat) : Nat × Nat :=
  let gap := (pkt + UINT32MOD - lastSeq - 1) % UINT32MOD
  (pkt, (dropped + gap) % UINT32MOD)

/-- radioclient.go parseHeader (lines 261-290), fuel-indexed: copy up to the
remaining header size into the header accumulator at the cursor, advance the
cursor and the consumed count; when the cursor reaches MessageHeaderSize,
reset it, decode the header and, if the body size is positive, switch the
phase to ParserReadingData; return the consumed count. none means the fuel
ran out before the loop finished. -/
def parseHeaderGo : Nat → ClientState → List Nat → Nat → Option (ClientState × Nat)
  | 0, st, buffer, consumed => if buffer = [] then some (st, consumed) else none
  | Nat.succ f, st, buffer, consumed =>
    if buffer = [] then some (st, consumed)
    else
      let toWrite := min (MessageHeaderSize - st.parserPosition) buffer.length
      let st1 := { st with
        headerBuffer := writeBytes st.headerBuffer st.parserPosition (buffer.take toWrite)
        parserPosition := st.parserPosition + toWrite }
      let consumed1 := consumed + toWrite
      let buffer1 := buffer.drop toWrite
      if st1.parserPosition = MessageHeaderSize then
        let hdr := decodeHeader st1.headerBuffer
        some ({ st1 with
                 parserPosition := 0
                 header := hdr
                 parserPhase := if 0 < hdr.BodySize then ParserReadingData else st1.parserPhase }
             , consumed1)
      else parseHeaderGo f st1 buffer1 consumed1

/-- radioclient.go parseBody (lines 292-312), fuel-indexed: identical copy
loop into the body accumulator; on completion reset the cursor and return the
phase to ParserAcquiringHeader. -/
def parseBodyGo : Nat → ClientState → List Nat → Nat → Option (ClientState × Nat)
  | 0, st, buffer, consumed => if buffer = [] then some (st, consumed) else none
  | Nat.succ f, st, buffer, consumed =>
    if buffer = [] then some (st, consumed)
    else
      let toWrite := min (st.header.BodySize - st.parserPosition) buffer.length
      let st1 := { st with
        bodyBuffer := writeBytes st.bodyBuffer st.parserPosition (buffer.take toWrite)
        parserPosition := st.parserPosition + toWrite }
      let consumed1 := consumed + toWrite
      let buffer1 := buffer.drop toWrite
      if st1.parserPosition = st1.header.BodySize then
        some ({ st1 with parserPosition := 0, parserPhase := ParserAcquiringHeader }, consumed1)
      else parseBodyGo f st1 buffer1 consumed1

/-- The inner loop of parseMessage (radioclient.go lines 221-224), transcribed
with the guard exactly as written in the source:
`for f.parserPhase == protocol.ParserReadingData && len(buffer) > 0`
repeatedly calls parseHeader and drops the consumed bytes. -/
def innerHeaderLoop : Nat → ClientState → List Nat → Option (ClientState × List Nat)
  | 0, st, buffer =>
    if st.parserPhase = ParserReadingData ∧ buffer ≠ [] then none else some (st, buffer)
  | Nat.succ f, st, buffer =>
    if st.parserPhase = ParserReadingData ∧ buffer ≠ [] then
      match parseHeaderGo f st buffer 0 with
      | none => none
      | some (st1, consumed) => innerHeaderLoop f st1 (buffer.drop consumed)
    else some (st, buffer)

/-- Result of one iteration of parseMessage's outer loop: updated state and
remaining buffer plus an optional dispatched frame (header and body bytes as
handed to handleNewMessage), or a fatal panic, or fuel exhaustion. -/
inductive IterRes where
  | ok : ClientState → List Nat → Option (MessageHeader × List Nat) → IterRes
  | fatal : ClientError → IterRes
  | fuelOut : IterRes
deriving DecidableEq

/-- One iteration of the outer loop of parseMessage (radioclient.go lines
220-257): the header-acquisition branch with its dead inner loop and the
post-header validation (headerChecks), then the body branch with parseBody,
the sequence bookkeeping (updateSequence) and the dispatch to
handleNewMessage, which ignores the frame when terminated is set. -/
def parseIter (f : Nat) (st : ClientState) (buffer : List Nat) : IterRes :=
  let acq : Option (Except ClientError (ClientState × List Nat)) :=
    if st.parserPhase = ParserAcquiringHeader then
      match innerHeaderLoop f st buffer with
      | none => none
      | some (st1, buf1) =>
        if st1.parserPhase = ParserReadingData then
          match headerChecks st1.header with
          | Except.error e => some (Except.error e)
          | Except.ok body => some (Except.ok ({ st1 with bodyBuffer := body }, buf1))
        else some (Except.ok (st1, buf1))
    else some (Except.ok (st, buffer))
  match acq with
  | none => IterRes.fuelOut
  | some (Except.error e) => IterRes.fatal e
  | some (Except.ok (st1, buf1)) =>
    if st1.parserPhase = ParserReadingData then
      match parseBodyGo f st1 buf1 0 with
      | none => IterRes.fuelOut
      | some (st2, consumed) =>
        let buf2 := buf1.drop consumed
        if st2.parserPhase = ParserAcquiringHeader then
          let sq := updateSequence st2.lastSequenceNumber st2.droppedBuffers st2.header.PacketNumber
          let st3 := { st2 with lastSequenceNumber := sq.1, droppedBuffers := sq.2 }
          IterRes.ok st3 buf2
            (if st3.terminated then none else some (st3.header, st3.bodyBuffer))
        else IterRes.ok st2 buf2 none
    else IterRes.ok st1 buf1 none

/-- Outcome of feeding one chunk to parseMessage: normal return with the final
state and the frames dispatched, a fatal panic, or fuel exhaustion, which
witnesses that the Go loop did not terminate within the given fuel. -/
inductive ParseOutcome where
  | ok : ClientState → List (MessageHeader × List Nat) → ParseOutcome
  | fatal : ClientError → ParseOutcome
  | outOfFuel : ParseOutcome
deriving DecidableEq

/-- Turn an optional dispatched frame into a dispatch list. -/
def dispatchList : Option (MessageHeader × List Nat) → List (MessageHeader × List Nat)
  | some x => [x]
  | none => []

/-- radioclient.go parseMessage (lines 215-259), fuel-indexed: the outer loop
`for len(buffer) > 0 && !f.terminated` running parseIter until the chunk is
exhausted, accumulating the dispatched frames in order. -/
def parseMessageGo : Nat → ClientState → List Nat → List (MessageHeader × List Nat) → ParseOutcome
  | 0, st, buffer, msgs =>
    if buffer = [] ∨ st.terminated = true then ParseOutcome.ok st msgs else ParseOutcome.outOfFuel
  | Nat.succ f, st, buffer, msgs =>
    if buffer = [] ∨ st.terminated = true then ParseOutcome.ok st msgs
    else
      match parseIter f st buffer with
      | IterRes.fuelOut => ParseOutcome.outOfFuel
      | IterRes.fatal e => ParseOutcome.fatal e
      | IterRes.ok st1 buf1 d => parseMessageGo f st1 buf1 (msgs ++ dispatchList d)

/-! ## IQ sample decoding (client/radioclient.go processIQ / processSmartIQ) -/

/-- The client sample type: a complex pair of 16-bit signed integers. -/
structure ComplexInt16 where
  Real : Int
  Imag : Int
deriving DecidableEq

/-- Decode two bytes as a little-endian 16-bit signed integer, as binary.Read
does for each element of the int16 slice. -/
def readInt16LE (b0 b1 : Nat) : Int :=
  let u := b0 + 256 * b1
  if u < 32768 then (u : Int) else (u : Int) - 65536

/-- The j-th little-endian int16 of the body, occupying bytes 2j and 2j+1;
this is element tmp[j] of the slice binary.Read fills in processIQ. -/
def int16At (body : List Nat) (j : Nat) : Int :=
  readInt16LE (nthD body (2 * j) 0) (nthD body (2 * j + 1) 0)

/-- radioclient.go processIQ (lines 356-373): sampleCount = bodySize / 4, the
body is read as sampleCount*2 consecutive little-endian int16 values tmp, and
pair i is built from tmp[2i] (real) and tmp[2i+1] (imaginary); the resulting
list is what the data callback receives. -/
def processIQ (body : List Nat) : List ComplexInt16 :=
  let sampleCount := body.length / 4
  let tmp := (List.range (2 * sampleCount)).map (int16At body)
  (List.range sampleCount).map (fun i => ⟨nthD tmp (2 * i) 0, nthD tmp (2 * i + 1) 0⟩)

/-- radioclient.go processSmartIQ (lines 379-396): byte-for-byte the same
decoding as processIQ, only the callback tag differs. -/
def processSmartIQ (body : List Nat) : List ComplexInt16 :=
  let sampleCount := body.length / 4
  let tmp := (List.range (2 * sampleCount)).map (int16At body)
  (List.range sampleCount).map (fun i => ⟨nthD tmp (2 * i) 0, nthD tmp (2 * i + 1) 0⟩)

/-! ## Server-side session registry (server/rpcCalls.go) -/

/-- The slice of a server Session observed by the registry RPCs: its ID and
whether its channel group reports an IQ stream already running. -/
structure SessionS where
  ID : Nat
  iqRunning : Bool
deriving DecidableEq

/-- The RadioServer registry state: the token-to-session map (Go map lookup
of a missing key yields nil, modelled as none). -/
structure RadioServerS where
  sessions : Nat → Option SessionS

/-- Calls the registry RPCs make into the device-session layer or on the map;
recorded as an ordered action trace. -/
inductive ServerAction where
  | fullStop : Nat → ServerAction
  | deleteEntry : Nat → ServerAction
  | tuneFrontend : Nat → ServerAction
deriving DecidableEq

/-- Registry errors returned to the RPC caller. -/
inductive RegistryError where
  | sessionDoesNotExist
deriving DecidableEq

/-- rpcCalls.go Destroy (lines 42-56): look up the token; a nil session is an
error with nothing changed; otherwise delete the map entry and call FullStop
on the session. Returns the RPC result, the new session map and the actions
performed on the device-session layer. -/
def DestroyGo (rs : RadioServerS) (token : Nat) :
    Except RegistryError Unit × RadioServerS × List ServerAction :=
  match rs.sessions token with
  | none => (Except.error RegistryError.sessionDoesNotExist, rs, [])
  | some s =>
    (Except.ok ()
    , ⟨fun k => if k = token then none else rs.sessions k⟩
    , [ServerAction.fullStop s.ID])

/-- rpcCalls.go Tune (lines 62-70): look up the token with no lock held; a nil
session is an error with no side effect; otherwise TuneFrontend is called with
the requested config, which is returned as-is. -/
def TuneGo (rs : RadioServerS) (token : Nat) (cfg : Nat) :
    Except RegistryError Nat × List ServerAction :=
  match rs.sessions token with
  | none => (Except.error RegistryError.sessionDoesNotExist, [])
  | some _ => (Except.ok cfg, [ServerAction.tuneFrontend cfg])

/-- One pass of the RXIQ delivery loop as the environment drives it: a send
that fails, a successful send after which IsFullStopped reports expiry, a
successful send with the session still alive, or an empty-FIFO pass that
sleeps and re-checks. -/
inductive InnerEvent where
  | sendFail
  | sendOkExpired
  | sendOkAlive
  | idle
deriving DecidableEq

/-- Errors with which the RXIQ loop returns. -/
inductive RxError where
  | sendError
  | sessionExpired
deriving DecidableEq

/-- The infinite for-loop of RXIQ (rpcCalls.go lines 89-112): a send failure
returns its error, a successful send followed by IsFullStopped returns the
session-expired error, otherwise the loop keeps draining; none means the
event script ended with the loop still running (the loop has no other exit). -/
def rxiqBody : List InnerEvent → Option RxError
  | [] => none
  | InnerEvent.sendFail :: _ => some RxError.sendError
  | InnerEvent.sendOkExpired :: _ => some RxError.sessionExpired
  | InnerEvent.sendOkAlive :: rest => rxiqBody rest
  | InnerEvent.idle :: rest => rxiqBody rest

/-- Result of an RXIQ call. fault models the Go nil-pointer panic raised when
a nil session is dereferenced. -/
inductive RxResult where
  | fault
  | alreadyRunning
  | errored : RxError → List ServerAction → RxResult
  | runsForever
deriving DecidableEq

/-- rpcCalls.go RXIQ (lines 72-113): the session is looked up and immediately
dereferenced for the IQRunning check (a nil session therefore faults); a
running stream returns the already-running error with no cleanup; otherwise
StartIQ runs, the deferred delete of the registry entry (line 79) and the
deferred FullStop (line 80) are registered, and any return from the delivery
loop executes the two deferred calls in LIFO order: FullStop first, then the
map delete. -/
def RXIQgo (rs : RadioServerS) (token : Nat) (events : List InnerEvent) : RxResult :=
  match rs.sessions token with
  | none => RxResult.fault
  | some s =>
    if s.iqRunning then RxResult.alreadyRunning
    else
      match rxiqBody events with
      | none => RxResult.runsForever
      | some err =>
        RxResult.errored err
          (List.reverse [ServerAction.deleteEntry token, ServerAction.fullStop s.ID])

/-- Occurrence count of an action in a trace. -/
def countAction : ServerAction → List ServerAction → Nat
  | _, [] => 0
  | a, b :: rest => (if a = b then 1 else 0) + countAction a rest

/-! ## Lock discipline of the registry RPCs (rpcCalls.go) -/

/-- The lock and token-map operations a registry RPC performs, in program
order. -/
inductive RegistryEvent where
  | lock
  | unlock
  | mapRead
  | mapWrite
  | mapDelete
deriving DecidableEq

/-- rpcCalls.go Provision (lines 25-40): sessionLock.Lock with a deferred
Unlock; on success the generated session is written into the map. -/
def provisionTrace (ok : Bool) : List RegistryEvent :=
  if ok then [RegistryEvent.lock, RegistryEvent.mapWrite, RegistryEvent.unlock]
  else [RegistryEvent.lock, RegistryEvent.unlock]

/-- rpcCalls.go Destroy (lines 42-56): sessionLock.Lock with a deferred
Unlock; the token is read and, when known, its entry deleted. -/
def destroyTrace (known : Bool) : List RegistryEvent :=
  if known then
    [RegistryEvent.lock, RegistryEvent.mapRead, RegistryEvent.mapDelete, RegistryEvent.unlock]
  else [RegistryEvent.lock, RegistryEvent.mapRead, RegistryEvent.unlock]

/-- rpcCalls.go Tune (lines 62-70): the map is read with no sessionLock
operation anywhere in the function. -/
def tuneTrace : List RegistryEvent := [RegistryEvent.mapRead]

/-- The session lookup of rpcCalls.go RXIQ (line 73): a bare map read, no
sessionLock operation in the function. -/
def rxiqLookupTrace : List RegistryEvent := [RegistryEvent.mapRead]

/-- Whether every map operation in the trace happens while the lock depth is
positive. -/
def accessesUnderLock (held : Nat) : List RegistryEvent → Bool
  | [] => true
  | RegistryEvent.lock :: rest => accessesUnderLock (held + 1) rest
  | RegistryEvent.unlock :: rest => accessesUnderLock (held - 1) rest
  | _ :: rest => decide (0 < held) && accessesUnderLock held rest

/-! ## Example data -/

/-- A valid encoded frame: header packetNumber 1, protocolVersion 1 <<< 32
(major 0, minor 1, matching CurrentProtocolVersion), messageType 5 (TypeIQ),
reserved 0, bodySize 4, followed by its 4 body bytes. -/
def exampleFrame : List Nat :=
  [1, 0, 0, 0,
   0, 0, 0, 0, 1, 0, 0, 0,
   5, 0, 0, 0,
   0, 0, 0, 0,
   4, 0, 0, 0,
   1, 0, 2, 0]

/-! ## Helper lemmas -/

lemma innerHeaderLoop_skip (f : Nat) (st : ClientState) (buffer : List Nat)
    (hphase : st.parserPhase = ParserAcquiringHeader) :
    innerHeaderLoop f st buffer = some (st, buffer) := by
  cases f with
  | zero =>
    simp [innerHeaderLoop, hphase, ParserAcquiringHeader, ParserReadingData]
  | succ f =>
    simp [innerHeaderLoop, hphase, ParserAcquiringHeader, ParserReadingData]

lemma parseIter_stuck (f : Nat) (st : ClientState) (buffer : List Nat)
    (hphase : st.parserPhase = ParserAcquiringHeader) :
    parseIter f st buffer = IterRes.ok st buffer none := by
  simp [parseIter, innerHeaderLoop_skip f st buffer hphase, hphase,
    ParserAcquiringHeader, ParserReadingData]

lemma parseMessage_spin (fuel : Nat) :
    ∀ (st : ClientState) (buffer : List Nat) (msgs : List (MessageHeader × List Nat)),
    st.parserPhase = ParserAcquiringHeader → st.terminated = false → buffer ≠ [] →
    parseMessageGo fuel st buffer msgs = ParseOutcome.outOfFuel := by
  induction fuel with
  | zero =>
    intro st buffer msgs h1 h2 h3
    simp [parseMessageGo, h2, h3]
  | succ f ih =>
    intro st buffer msgs h1 h2 h3
    simp only [parseMessageGo, h2, h3, parseIter_stuck f st buffer h1]
    simp only [dispatchList, List.append_nil]
    rw [if_neg (by simp [h2, h3])]
    exact ih st buffer msgs h1 h2 h3

/-! ## Claim theorems -/

/-- Claim C1. The claim fails on the code: the inner header-acquisition loop
of parseMessage (radioclient.go line 221) is guarded by
parserPhase == ParserReadingData although it is only reached when the phase is
ParserAcquiringHeader, so parseHeader is never invoked, no byte of the chunk
is ever consumed and the outer loop never terminates.  Feeding the valid
28-byte frame exampleFrame as a single chunk to a fresh client therefore
dispatches no message at all for any amount of fuel, instead of exactly one. -/
theorem parse_whole_frame_never_dispatches :
    ∀ fuel : Nat,
      parseMessageGo fuel initialClientState exampleFrame [] = ParseOutcome.outOfFuel :=
  fun fuel =>
    parseMessage_spin fuel initialClientState exampleFrame [] rfl rfl (by decide)

/-- Witness for parse_whole_frame_never_dispatches at fuel 3. -/
theorem parse_whole_frame_never_dispatches_witness :
    parseMessageGo 3 initialClientState exampleFrame [] = ParseOutcome.outOfFuel :=
  parse_whole_frame_never_dispatches 3

/-- Claim C2. The claim fails on the code: in the AcquiringHeader phase with a
non-empty chunk, parseMessage copies nothing into the header accumulator and
never advances the cursor, because its inner loop guard (radioclient.go line
221) demands parserPhase == ParserReadingData and is therefore never entered;
the chunk is never consumed and the call does not terminate (outOfFuel for
every fuel bound). -/
theorem acquiring_header_consumes_nothing :
    ∀ (fuel : Nat) (st : ClientState) (buffer : List Nat),
      st.parserPhase = ParserAcquiringHeader → st.terminated = false → buffer ≠ [] →
      parseMessageGo fuel st buffer [] = ParseOutcome.outOfFuel :=
  fun fuel st buffer h1 h2 h3 => parseMessage_spin fuel st buffer [] h1 h2 h3

/-- Witness for acquiring_header_consumes_nothing: a fresh client fed the
single byte 0. -/
theorem acquiring_header_consumes_nothing_witness :
    parseMessageGo 3 initialClientState [0] [] = ParseOutcome.outOfFuel :=
  acquiring_header_consumes_nothing 3 initialClientState [0] rfl rfl (by decide)

/-- Claim C3. For every completed header whose protocolVersion decodes to a
major or minor different from CurrentProtocolVersion (major 0, minor 1), the
validation block run when the header completes (radioclient.go lines 226-241,
before any body byte is consumed and before the body buffer is allocated)
panics with the unsupported-protocol-version error; when both fields match,
that error is never raised. -/
theorem version_mismatch_is_fatal :
    ∀ h : MessageHeader,
      (((SplitProtocolVersion h.ProtocolVersion).Major ≠ CurrentProtocolVersion.Major ∨
        (SplitProtocolVersion h.ProtocolVersion).Minor ≠ CurrentProtocolVersion.Minor) →
        headerChecks h = Except.error ClientError.unsupportedProtocolVersion) ∧
      ((SplitProtocolVersion h.ProtocolVersion).Major = CurrentProtocolVersion.Major ∧
       (SplitProtocolVersion h.ProtocolVersion).Minor = CurrentProtocolVersion.Minor →
        headerChecks h ≠ Except.error ClientError.unsupportedProtocolVersion) := by
  intro h
  constructor
  · intro hne
    rcases hne with h1 | h1
    · simp only [headerChecks]
      rw [if_pos (Or.inl (Ne.symm h1))]
    · simp only [headerChecks]
      rw [if_pos (Or.inr (Ne.symm h1))]
  · intro heq
    simp only [headerChecks]
    rw [if_neg (by
      push_neg
      exact ⟨heq.1.symm, heq.2.symm⟩)]
    by_cases hb : MaxMessageBodySize < h.BodySize
    · simp [hb]
    · simp [hb]

/-- Witness for version_mismatch_is_fatal: a header carrying protocol version
2 * 2^32, which decodes to major 0 and minor 2, differing from the local
version in the minor field only. -/
theorem version_mismatch_is_fatal_witness :
    headerChecks ⟨0, 8589934592, 0, 0, 0⟩ =
      Except.error ClientError.unsupportedProtocolVersion :=
  (version_mismatch_is_fatal ⟨0, 8589934592, 0, 0, 0⟩).1 (Or.inr (by decide))

/-- Claim C4. When a completed header declares a body size above
MaxMessageBodySize = 2^20, the validation block (radioclient.go lines 226-241)
panics before the body accumulator is allocated: headerChecks returns an error
and no buffer.  When the body size is within the cap and the protocol version
matches, no error is raised and the allocated body buffer has exactly
BodySize (zeroed) bytes. -/
theorem oversized_body_is_fatal :
    ∀ h : MessageHeader,
      (MaxMessageBodySize < h.BodySize → ∃ e, headerChecks h = Except.error e) ∧
      (h.BodySize ≤ MaxMessageBodySize →
       (SplitProtocolVersion h.ProtocolVersion).Major = CurrentProtocolVersion.Major →
       (SplitProtocolVersion h.ProtocolVersion).Minor = CurrentProtocolVersion.Minor →
        headerChecks h = Except.ok (List.replicate h.BodySize 0)) := by
  intro h
  constructor
  · intro hb
    simp only [headerChecks]
    by_cases hv : CurrentProtocolVersion.Major ≠ (SplitProtocolVersion h.ProtocolVersion).Major ∨
        CurrentProtocolVersion.Minor ≠ (SplitProtocolVersion h.ProtocolVersion).Minor
    · rw [if_pos hv]
      exact ⟨ClientError.unsupportedProtocolVersion, rfl⟩
    · rw [if_neg hv, if_pos hb]
      exact ⟨ClientError.bodySizeTooLarge, rfl⟩
  · intro hb hM hm
    simp only [headerChecks]
    rw [if_neg (by
      push_neg
      exact ⟨hM.symm, hm.symm⟩)]
    rw [if_neg (by omega)]

/-- Witness for oversized_body_is_fatal: a header with matching version and
bodySize = 2^20 + 1 is rejected. -/
theorem oversized_body_is_fatal_witness :
    ∃ e, headerChecks ⟨0, 4294967296, 0, 0, 1048577⟩ = Except.error e :=
  (oversized_body_is_fatal ⟨0, 4294967296, 0, 0, 1048577⟩).1 (by decide)

lemma nthD_append_left {α : Type} :
    ∀ (l₁ l₂ : List α) (k : Nat) (d : α), k < l₁.length →
      nthD (l₁ ++ l₂) k d = nthD l₁ k d := by
  intro l₁
  induction l₁ with
  | nil => intro l₂ k d hk; simp at hk
  | cons a l ih =>
    intro l₂ k d hk
    cases k with
    | zero => rfl
    | succ k =>
      simp only [List.cons_append, nthD]
      exact ih l₂ k d (by simpa using hk)

lemma nthD_append_length {α : Type} :
    ∀ (l : List α) (x : α) (d : α), nthD (l ++ [x]) l.length d = x := by
  intro l
  induction l with
  | nil => intro x d; rfl
  | cons a l ih =>
    intro x d
    simpa only [List.cons_append, List.length_cons, nthD] using ih x d

lemma nthD_map_range {β : Type} (f : Nat → β) (d : β) :
    ∀ (n k : Nat), k < n → nthD ((List.range n).map f) k d = f k := by
  intro n
  induction n with
  | zero => intro k hk; omega
  | succ n ih =>
    intro k hk
    rw [List.range_succ, List.map_append]
    rcases Nat.lt_or_ge k n with h | h
    · rw [nthD_append_left _ _ k d (by simpa using h)]
      exact ih k h
    · have hk' : k = n := by omega
      subst hk'
      have hl : ((List.range k).map f).length = k := by simp
      calc nthD ((List.range k).map f ++ [f k]) k d
          = nthD ((List.range k).map f ++ [f k]) ((List.range k).map f).length d := by rw [hl]
        _ = f k := nthD_append_length _ _ _

/-- Claim C5. Two frames completed consecutively with packet numbers p then
p+1 (uint32 wrapping) leave the dropped-buffers counter unchanged, and p then
p+g+1 increases it by exactly g; in both cases lastSequenceNumber becomes the
newer packet number.  updateSequence is the bookkeeping parseMessage performs
at radioclient.go lines 249-251 with lastSequenceNumber = p already recorded
by the first frame. -/
theorem gap_counts_dropped_buffers :
    ∀ (p g d : Nat), p < UINT32MOD → g < UINT32MOD → d < UINT32MOD →
      (updateSequence p d ((p + 1) % UINT32MOD) = (((p + 1) % UINT32MOD), d)) ∧
      (d + g < UINT32MOD →
        updateSequence p d ((p + g + 1) % UINT32MOD) = (((p + g + 1) % UINT32MOD), d + g)) := by
  intro p g d hp hg hd
  have key : ∀ g', g' < UINT32MOD →
      ((p + g' + 1) % UINT32MOD + UINT32MOD - p - 1) % UINT32MOD = g' := by
    intro g' hg'
    have h1 : (p + g' + 1) % UINT32MOD + UINT32MOD - p - 1 =
        (p + g' + 1) % UINT32MOD + (UINT32MOD - p - 1) := by
      have : p + 1 ≤ UINT32MOD := hp
      omega
    rw [h1, Nat.mod_add_mod]
    have h2 : p + g' + 1 + (UINT32MOD - p - 1) = g' + UINT32MOD := by
      have : p + 1 ≤ UINT32MOD := hp
      omega
    rw [h2, Nat.add_mod_right]
    exact Nat.mod_eq_of_lt hg'
  constructor
  · have k0 := key 0 (by simp [UINT32MOD])
    simp only [Nat.add_zero] at k0
    simp only [updateSequence, k0, Nat.add_zero]
    rw [Nat.mod_eq_of_lt hd]
  · intro hdg
    have kg := key g hg
    simp only [updateSequence, kg]
    rw [Nat.mod_eq_of_lt hdg]

/-- Witness for gap_counts_dropped_buffers: after packet 10 with 7 drops
recorded, packet 11 leaves the counter at 7 and packet 16 (gap 5) raises it
to 12. -/
theorem gap_counts_dropped_buffers_witness :
    (updateSequence 10 7 ((10 + 1) % UINT32MOD) = (((10 + 1) % UINT32MOD), 7)) ∧
    (7 + 5 < UINT32MOD →
      updateSequence 10 7 ((10 + 5 + 1) % UINT32MOD) = (((10 + 5 + 1) % UINT32MOD), 7 + 5)) :=
  gap_counts_dropped_buffers 10 5 7 (by decide) (by decide) (by decide)

/-- Claim C6. processIQ and processSmartIQ turn a body of interleaved
little-endian 16-bit signed integers into exactly bodySize/4 complex pairs,
pair i taking its real part from source integer 2i and its imaginary part
from source integer 2i+1 (int16At body j is the j-th little-endian int16 of
the body, at bytes 2j and 2j+1); the resulting list is what the data callback
receives, and a 4096-byte body (1024 samples) yields exactly 1024 pairs. -/
theorem iq_decode_interleaved_pairs :
    ∀ (body : List Nat),
      (processIQ body).length = body.length / 4 ∧
      (processSmartIQ body).length = body.length / 4 ∧
      (∀ i, i < body.length / 4 →
        nthD (processIQ body) i ⟨0, 0⟩ = ⟨int16At body (2 * i), int16At body (2 * i + 1)⟩ ∧
        nthD (processSmartIQ body) i ⟨0, 0⟩ = ⟨int16At body (2 * i), int16At body (2 * i + 1)⟩) ∧
      (body.length = 4096 → (processIQ body).length = 1024) := by
  intro body
  have hlen : (processIQ body).length = body.length / 4 := by
    simp [processIQ]
  have hlen2 : (processSmartIQ body).length = body.length / 4 := by
    simp [processSmartIQ]
  have helem : ∀ i, i < body.length / 4 →
      nthD (processIQ body) i ⟨0, 0⟩ = ⟨int16At body (2 * i), int16At body (2 * i + 1)⟩ := by
    intro i hi
    simp only [processIQ]
    rw [nthD_map_range _ _ _ i hi]
    rw [nthD_map_range (int16At body) 0 (2 * (body.length / 4)) (2 * i) (by omega)]
    rw [nthD_map_range (int16At body) 0 (2 * (body.length / 4)) (2 * i + 1) (by omega)]
  have helem2 : ∀ i, i < body.length / 4 →
      nthD (processSmartIQ body) i ⟨0, 0⟩ = ⟨int16At body (2 * i), int16At body (2 * i + 1)⟩ := by
    intro i hi
    simp only [processSmartIQ]
    rw [nthD_map_range _ _ _ i hi]
    rw [nthD_map_range (int16At body) 0 (2 * (body.length / 4)) (2 * i) (by omega)]
    rw [nthD_map_range (int16At body) 0 (2 * (body.length / 4)) (2 * i + 1) (by omega)]
  exact ⟨hlen, hlen2, fun i hi => ⟨helem i hi, helem2 i hi⟩, fun h4096 => by rw [hlen, h4096]⟩

/-- Witness for iq_decode_interleaved_pairs: the 8-byte body 1,0,2,0,3,0,4,0
decodes so that pair 1 is built from source integers 2 and 3. -/
theorem iq_decode_interleaved_pairs_witness :
    nthD (processIQ [1, 0, 2, 0, 3, 0, 4, 0]) 1 ⟨0, 0⟩ =
      ⟨int16At [1, 0, 2, 0, 3, 0, 4, 0] (2 * 1), int16At [1, 0, 2, 0, 3, 0, 4, 0] (2 * 1 + 1)⟩ :=
  ((iq_decode_interleaved_pairs [1, 0, 2, 0, 3, 0, 4, 0]).2.2.1 1 (by decide)).1

/-- Counterexample for claim C7: Tune (rpcCalls.go lines 62-70) reads the
token-to-session map with the lock depth still zero — the function contains
no sessionLock operation — so not every registry map access happens under the
session lock. -/
theorem tune_reads_map_without_lock :
    accessesUnderLock 0 tuneTrace = false := by decide

/-- Claim C7 as amended: Provision and Destroy perform all their map accesses
while holding the session lock, but Tune and the session lookup performed by
RXIQ access the map without taking the lock at all. -/
theorem registry_lock_discipline :
    accessesUnderLock 0 (provisionTrace true) = true ∧
    accessesUnderLock 0 (provisionTrace false) = true ∧
    accessesUnderLock 0 (destroyTrace true) = true ∧
    accessesUnderLock 0 (destroyTrace false) = true ∧
    accessesUnderLock 0 tuneTrace = false ∧
    accessesUnderLock 0 rxiqLookupTrace = false := by decide

/-- Claim C8. For a token absent from the registry, Destroy returns an error
leaving the session map untouched and performing no device-session call (in
particular no FullStop), and Tune returns an error without forwarding any
configuration; for a known token Destroy removes exactly that entry and
issues the session FullStop. Transcribed from rpcCalls.go lines 42-56 and
62-70. -/
theorem destroy_tune_unknown_token :
    ∀ (rs : RadioServerS) (token : Nat) (cfg : Nat),
      (rs.sessions token = none →
        (DestroyGo rs token).1 = Except.error RegistryError.sessionDoesNotExist ∧
        (DestroyGo rs token).2.1 = rs ∧
        (DestroyGo rs token).2.2 = [] ∧
        (TuneGo rs token cfg).1 = Except.error RegistryError.sessionDoesNotExist ∧
        (TuneGo rs token cfg).2 = []) ∧
      (∀ s, rs.sessions token = some s →
        (DestroyGo rs token).2.1.sessions token = none ∧
        (∀ k, k ≠ token → (DestroyGo rs token).2.1.sessions k = rs.sessions k) ∧
        (DestroyGo rs token).2.2 = [ServerAction.fullStop s.ID]) := by
  intro rs token cfg
  constructor
  · intro hnone
    simp [DestroyGo, TuneGo, hnone]
  · intro s hsome
    refine ⟨?_, ?_, ?_⟩
    · simp [DestroyGo, hsome]
    · intro k hk
      simp [DestroyGo, hsome, hk]
    · simp [DestroyGo, hsome]

/-- Witness for destroy_tune_unknown_token: the empty registry rejects
Destroy and Tune for token 7 with no state change and no actions. -/
theorem destroy_tune_unknown_token_witness :
    (DestroyGo ⟨fun _ => none⟩ 7).1 = Except.error RegistryError.sessionDoesNotExist ∧
    (DestroyGo ⟨fun _ => none⟩ 7).2.1 = (⟨fun _ => none⟩ : RadioServerS) ∧
    (DestroyGo ⟨fun _ => none⟩ 7).2.2 = [] ∧
    (TuneGo ⟨fun _ => none⟩ 7 3).1 = Except.error RegistryError.sessionDoesNotExist ∧
    (TuneGo ⟨fun _ => none⟩ 7 3).2 = [] :=
  (destroy_tune_unknown_token ⟨fun _ => none⟩ 7 3).1 rfl

/-- Claim C9. Whenever an RXIQ call that passed the already-running check
terminates — on a transport send failure, on session-expired detection, the
only exits of its delivery loop — the deferred calls registered at
rpcCalls.go lines 79-80 run exactly once each: the session FullStop and the
removal of the registry entry. -/
theorem rxiq_cleanup_on_termination :
    ∀ (rs : RadioServerS) (token : Nat) (s : SessionS) (events : List InnerEvent)
      (err : RxError) (acts : List ServerAction),
      rs.sessions token = some s → s.iqRunning = false →
      RXIQgo rs token events = RxResult.errored err acts →
      countAction (ServerAction.fullStop s.ID) acts = 1 ∧
      countAction (ServerAction.deleteEntry token) acts = 1 := by
  intro rs token s events err acts hsome hrun hcall
  simp only [RXIQgo, hsome, hrun, Bool.false_eq_true, if_false] at hcall
  cases hbody : rxiqBody events with
  | none => rw [hbody] at hcall; exact absurd hcall (by simp)
  | some e =>
    rw [hbody] at hcall
    have hacts : acts = [ServerAction.fullStop s.ID, ServerAction.deleteEntry token] := by
      have := (RxResult.errored.injEq _ _ _ _).mp hcall
      simp only [List.reverse_cons, List.reverse_nil, List.nil_append,
        List.singleton_append] at this
      exact this.2.symm
    subst hacts
    constructor
    · simp [countAction]
    · simp [countAction]

/-- Witness for rxiq_cleanup_on_termination: a registry holding session 5
under token 9, whose stream terminates with a transport send failure on its
first delivery, runs FullStop and the registry delete once each. -/
theorem rxiq_cleanup_on_termination_witness :
    countAction (ServerAction.fullStop 5)
        [ServerAction.fullStop 5, ServerAction.deleteEntry 9] = 1 ∧
    countAction (ServerAction.deleteEntry 9)
        [ServerAction.fullStop 5, ServerAction.deleteEntry 9] = 1 :=
  rxiq_cleanup_on_termination
    ⟨fun k => if k = 9 then some ⟨5, false⟩ else none⟩ 9 ⟨5, false⟩
    [InnerEvent.sendFail] RxError.sendError
    [ServerAction.fullStop 5, ServerAction.deleteEntry 9]
    (by decide) rfl (by decide)

/-- Counterexample for claim C10: calling RXIQ on an empty registry with
token 3 does not return an error — it faults, because rpcCalls.go line 74
dereferences the nil session (s.CG.IQRunning()) before any unknown-token
check. -/
theorem rxiq_unknown_token_faults_concrete :
    RXIQgo ⟨fun _ => none⟩ 3 [] = RxResult.fault := rfl

/-- Claim C10 as amended: for every RXIQ call whose token has no registry
entry, the nil session returned by the map lookup is dereferenced by the
IQRunning check and the call faults (nil-pointer panic) instead of returning
an error; no stream is started and no cleanup action runs. -/
theorem rxiq_unknown_token_faults :
    ∀ (rs : RadioServerS) (token : Nat) (events : List InnerEvent),
      rs.sessions token = none → RXIQgo rs token events = RxResult.fault := by
  intro rs token events hnone
  simp [RXIQgo, hnone]

/-- Witness for rxiq_unknown_token_faults: the empty registry with token 4
and a pending send event. -/
theorem rxiq_unknown_token_faults_witness :
    RXIQgo ⟨fun _ => none⟩ 4 [InnerEvent.sendOkAlive] = RxResult.fault :=
  rxiq_unknown_token_faults ⟨fun _ => none⟩ 4 [InnerEvent.sendOkAlive] rfl
